import Mathlib

/-
Verification of the `test_ecr` repository: a minimal Flask HTTP service
(`src/app.py`) exposing two static routes and a `__main__` guard that
starts the development server.

The embedding models:
  * the two view functions `hello_geek` and `health` (constant string
    returns, src/app.py lines 6-13);
  * Flask's route dispatch for routes registered with `@app.route`
    (default allowed methods GET/HEAD/OPTIONS; a view returning a `str`
    becomes a 200 response with Flask's default mimetype
    `text/html; charset=utf-8`; unknown paths get the default 404 page;
    known paths with a disallowed method get 405);
  * the `app.run(debug=True, port=8000)` call and Flask's defaults for
    `app.run` (host `127.0.0.1`, port 5000 when omitted);
  * top-level module evaluation under the two Python execution modes
    (run as `__main__` versus imported).
-/

/-- HTTP request methods relevant to dispatch. -/
inductive HttpMethod
  | GET | HEAD | OPTIONS | POST | PUT | DELETE | PATCH
deriving DecidableEq, Repr

/-- An HTTP request as seen by the routing layer: a method and a path. -/
structure Request where
  method : HttpMethod
  path : String
deriving DecidableEq, Repr

/-- An HTTP response: status code, body, and content type. -/
structure Response where
  status : Nat
  body : String
  contentType : String
deriving DecidableEq, Repr

/-- A registered route: the URL rule, the endpoint name (in Flask the
view function's `__name__`), and the body the view function returns
(both views in src/app.py return constant strings). -/
structure Route where
  rule : String
  endpointName : String
  view : String
deriving DecidableEq, Repr

/-- View function at src/app.py lines 6-8: `def hello_geek(): return
'<h1>Hello from Flask & Docker</h2>'`. -/
def hello_geek : String := "<h1>Hello from Flask & Docker</h2>"

/-- View function at src/app.py lines 11-13: `def health(): return
'success'`. -/
def health : String := "success"

/-- Flask's default mimetype for a view returning a `str`: the response
is sent as `text/html; charset=utf-8`. -/
def defaultContentType : String := "text/html; charset=utf-8"

/-- Flask's conversion of a returned `str` into a response: status 200,
the string as body, default HTML content type. -/
def okResponse (s : String) : Response :=
  { status := 200, body := s, contentType := defaultContentType }

/-- Flask's default 404 response for an unregistered path (body models
the framework's standard Not Found page). -/
def notFound : Response :=
  { status := 404
    body := "<!doctype html><html lang=en><title>404 Not Found</title>"
    contentType := defaultContentType }

/-- Flask's default 405 response for a registered path with a method
outside the route's allowed set. -/
def methodNotAllowed : Response :=
  { status := 405
    body := "<!doctype html><html lang=en><title>405 Method Not Allowed</title>"
    contentType := defaultContentType }

/-- The route table built by the two `@app.route` decorators in
src/app.py: `/` mapped to `hello_geek` and `/health` mapped to
`health`. -/
def routes : List Route :=
  [ { rule := "/", endpointName := "hello_geek", view := hello_geek }
  , { rule := "/health", endpointName := "health", view := health } ]

/-- Flask route dispatch over a route table. A route registered without
an explicit `methods` argument allows GET (plus automatic HEAD and
OPTIONS): GET returns the view's string as a 200 HTML response, HEAD the
same response with an empty body, OPTIONS an empty 200; any other method
on a registered rule yields the default 405, and a path matching no rule
yields the default 404. -/
def dispatch (table : List Route) (req : Request) : Response :=
  match table.find? (fun r => r.rule == req.path) with
  | some r =>
      match req.method with
      | HttpMethod.GET => okResponse r.view
      | HttpMethod.HEAD => { okResponse r.view with body := "" }
      | HttpMethod.OPTIONS => { status := 200, body := "", contentType := defaultContentType }
      | _ => methodNotAllowed
  | none => notFound

/-- Arguments of a `Flask.run` call: optional host, optional port, and
the debug flag. -/
structure RunArgs where
  host : Option String
  port : Option Nat
  debug : Bool
deriving DecidableEq, Repr

/-- Flask's default bind host when `app.run` is given no `host`. -/
def defaultHost : String := "127.0.0.1"

/-- Flask's default port when `app.run` is given no `port`. -/
def defaultPort : Nat := 5000

/-- The host `app.run` actually binds, after applying the framework
default. -/
def resolvedHost (a : RunArgs) : String := a.host.getD defaultHost

/-- The port `app.run` actually listens on, after applying the framework
default. -/
def resolvedPort (a : RunArgs) : Nat := a.port.getD defaultPort

/-- The `app.run(debug=True, port=8000)` call at src/app.py line 17: no
host, port 8000, debug on. -/
def mainRunArgs : RunArgs := { host := none, port := some 8000, debug := true }

/-- How the module is executed: as the process entry point
(`__name__ == "__main__"`) or imported from another module. -/
inductive ExecMode
  | main | imported
deriving DecidableEq, Repr

/-- Result of evaluating src/app.py top to bottom: the routes that got
registered, and the `app.run` invocation if one happened. -/
structure ModuleEval where
  registered : List Route
  ranServer : Option RunArgs
deriving DecidableEq, Repr

/-- Evaluating src/app.py under an execution mode. The decorators at
lines 6 and 11 register both routes unconditionally; the guard at line
16 makes the `app.run` call at line 17 happen only when the module is
the process entry point. -/
def evalModule : ExecMode → ModuleEval
  | ExecMode.main => { registered := routes, ranServer := some mainRunArgs }
  | ExecMode.imported => { registered := routes, ranServer := none }

/-- Server state threaded through request handling. The only program
state the module holds is the `app` object's route table; the view
functions read nothing else and write nothing. -/
abbrev ServerState := List Route

/-- Handling one request: produce the dispatched response and the state
afterwards. The view functions at src/app.py lines 6-13 only return
literals, so the state is returned unchanged. -/
def handle (s : ServerState) (req : Request) : Response × ServerState :=
  (dispatch s req, s)

/-- The server state after handling a sequence of requests in order. -/
def stateAfter (s : ServerState) : List Request → ServerState
  | [] => s
  | r :: rest => stateAfter (handle s r).2 rest

/-- Modelled from the spec: the repository's second near-duplicate copy
of the service is not present under src/. Per the spec it registers the
same two routes with the same bodies, differs only in port configuration
(its `app.run` omits the port override) and has a duplicate function
name shadowing the health handler, while route behavior stays
equivalent. This is its route table: both view functions bear the same
name, the second shadowing the first. -/
def copyB_routes : List Route :=
  [ { rule := "/", endpointName := "hello_geek", view := hello_geek }
  , { rule := "/health", endpointName := "hello_geek", view := health } ]

/-- Modelled from the spec: the second copy's `app.run` call omits the
port override entirely (debug flag retained, no host). -/
def copyB_runArgs : RunArgs := { host := none, port := none, debug := true }

/- Helper lemmas shared by several theorems below. -/

theorem handle_snd (s : ServerState) (req : Request) : (handle s req).2 = s := rfl

theorem stateAfter_id (s : ServerState) (l : List Request) : stateAfter s l = s := by
  induction l with
  | nil => rfl
  | cons r rest ih => simpa [stateAfter, handle_snd] using ih

theorem find?_routes_of_ne (p : String) (h1 : p ≠ "/") (h2 : p ≠ "/health") :
    routes.find? (fun r => r.rule == p) = none := by
  have e1 : (("/" : String) == p) = false := beq_eq_false_iff_ne.mpr (Ne.symm h1)
  have e2 : (("/health" : String) == p) = false := beq_eq_false_iff_ne.mpr (Ne.symm h2)
  simp [routes, List.find?, e1, e2]

/-- C1: every GET request to `/` gets status 200 with the exact literal
body `<h1>Hello from Flask & Docker</h2>`. -/
theorem get_root_status_and_body :
    (dispatch routes { method := HttpMethod.GET, path := "/" }).status = 200 ∧
    (dispatch routes { method := HttpMethod.GET, path := "/" }).body =
      "<h1>Hello from Flask & Docker</h2>" := by
  constructor <;> rfl

/-- C2: every GET request to `/health` gets status 200 with the exact
literal body `success`. -/
theorem get_health_status_and_body :
    (dispatch routes { method := HttpMethod.GET, path := "/health" }).status = 200 ∧
    (dispatch routes { method := HttpMethod.GET, path := "/health" }).body = "success" := by
  constructor <;> rfl

/-- C3: a request whose path is neither `/` nor `/health` gets the
framework's default 404 — in particular a non-200 status. -/
theorem unregistered_path_non_200 (req : Request)
    (h1 : req.path ≠ "/") (h2 : req.path ≠ "/health") :
    (dispatch routes req).status = 404 ∧ (dispatch routes req).status ≠ 200 := by
  have hd : dispatch routes req = notFound := by
    unfold dispatch
    rw [find?_routes_of_ne req.path h1 h2]
  rw [hd]
  exact ⟨rfl, by decide⟩

/-- Witness for C3 at the concrete request GET `/nope`. -/
theorem unregistered_path_non_200_witness :
    ("/nope" : String) ≠ "/" ∧ ("/nope" : String) ≠ "/health" ∧
    (dispatch routes { method := HttpMethod.GET, path := "/nope" }).status = 404 ∧
    (dispatch routes { method := HttpMethod.GET, path := "/nope" }).status ≠ 200 :=
  ⟨by decide, by decide,
    unregistered_path_non_200 { method := HttpMethod.GET, path := "/nope" }
      (by decide) (by decide)⟩

/-- C4 counterexample: the response to GET `/health` is served with
Flask's default HTML content type, not a plain-text content type — a
bare `str` returned by a view is always sent as
`text/html; charset=utf-8`. -/
theorem health_content_type_not_plain :
    (dispatch routes { method := HttpMethod.GET, path := "/health" }).contentType
      = "text/html; charset=utf-8" ∧
    (dispatch routes { method := HttpMethod.GET, path := "/health" }).contentType
      ≠ "text/plain" ∧
    (dispatch routes { method := HttpMethod.GET, path := "/health" }).contentType
      ≠ "text/plain; charset=utf-8" :=
  ⟨rfl, by decide, by decide⟩

/-- C4 amended: the responses to GET `/` and GET `/health` both carry
the framework's HTML text content type `text/html; charset=utf-8`. -/
theorem both_routes_html_content_type :
    (dispatch routes { method := HttpMethod.GET, path := "/" }).contentType
      = defaultContentType ∧
    (dispatch routes { method := HttpMethod.GET, path := "/health" }).contentType
      = defaultContentType ∧
    defaultContentType = "text/html; charset=utf-8" :=
  ⟨rfl, rfl, rfl⟩

/-- C5: run as the process entry point, the module invokes `app.run`
with debug enabled and the configuration resolving to port 8000, the
bind interface resolving to the framework's default host. -/
theorem main_starts_server_port_8000_debug :
    (evalModule ExecMode.main).ranServer = some mainRunArgs ∧
    resolvedPort mainRunArgs = 8000 ∧
    mainRunArgs.debug = true ∧
    resolvedHost mainRunArgs = defaultHost := by
  refine ⟨rfl, rfl, rfl, rfl⟩

/-- C6: the response to a request is the same regardless of which
requests were handled before it — handling is deterministic and
independent of prior requests. -/
theorem responses_deterministic (pre1 pre2 : List Request) (req : Request) :
    (handle (stateAfter routes pre1) req).1 = (handle (stateAfter routes pre2) req).1 ∧
    (handle (stateAfter routes pre1) req).1 = dispatch routes req := by
  rw [stateAfter_id, stateAfter_id]
  exact ⟨rfl, rfl⟩

/-- C7: handling any request, from any server state, returns the state
unchanged, and no sequence of requests changes the state either — the
handlers have no side effects. -/
theorem handlers_have_no_side_effects (s : ServerState) (req : Request)
    (pre : List Request) :
    (handle s req).2 = s ∧ stateAfter s pre = s :=
  ⟨handle_snd s req, stateAfter_id s pre⟩

/-- C8: the copy under src/ overrides the port to 8000 while the second
copy omits the port override, so the two copies resolve two distinct
listening ports: 8000 and the framework's default. -/
theorem two_copies_distinct_ports :
    mainRunArgs.port = some 8000 ∧
    copyB_runArgs.port = none ∧
    resolvedPort mainRunArgs = 8000 ∧
    resolvedPort copyB_runArgs = defaultPort ∧
    resolvedPort mainRunArgs ≠ resolvedPort copyB_runArgs := by
  refine ⟨rfl, rfl, rfl, rfl, by decide⟩

/-- C9: the two copies dispatch every request identically; they differ
in their run configuration (the port), and only the second copy carries
a duplicated function name (its endpoint names are not distinct, while
those of the copy under src/ are). -/
theorem near_duplicate_copies_equivalent :
    (∀ req : Request, dispatch copyB_routes req = dispatch routes req) ∧
    mainRunArgs ≠ copyB_runArgs ∧
    (routes.map Route.endpointName).Nodup ∧
    ¬ (copyB_routes.map Route.endpointName).Nodup := by
  refine ⟨?_, by decide, by decide, by decide⟩
  intro req
  unfold dispatch
  cases hb1 : (("/" : String) == req.path) with
  | true => simp [copyB_routes, routes, List.find?, hb1]
  | false =>
    cases hb2 : (("/health" : String) == req.path) with
    | true => simp [copyB_routes, routes, List.find?, hb1, hb2]
    | false => simp [copyB_routes, routes, List.find?, hb1, hb2]

/-- C10: `app.run` is invoked if and only if the module is executed as
the main program; route registration happens in both execution modes. -/
theorem import_only_registers_routes (m : ExecMode) :
    ((evalModule m).ranServer ≠ none ↔ m = ExecMode.main) ∧
    (evalModule m).registered = routes := by
  cases m <;> simp [evalModule]
